import Mathlib

/-!
Shallow embedding of `pycmt3d`'s data-assembly layer
(`src/pycmt3d/data_container.py`) and verification of its specification.

Conventions of the embedding:
* Python floats are modelled as exact rationals `ℚ` (the code performs only
  field arithmetic, truncation `int(...)` and comparisons on them).
* Python dicts keyed by strings are modelled as association lists
  `List (String × α)`; `d[k]` lookup failure is an explicit error.
* Fallible code returns `Except String α`; the error string is a rendering of
  the exception the Python code raises.
* File-system and archive I/O is modelled by passing the readable content in
  explicitly (a path → trace map, an archive value, a pre-tokenised window
  file); reading a single waveform given a path or tag is a provided
  capability per the specification's scope section.
-/

namespace Pycmt3d

/-- An `obspy.Trace` restricted to the fields `data_container.py` reads:
the four identifier components (`stats.network` …), the sampling interval
`stats.delta`, the SAC `b` header and station coordinate headers
(`stats.sac['b']`, `['stla']`, `['stlo']`), and the sample array `data`. -/
structure Trace where
  network : String
  station : String
  location : String
  channel : String
  delta : ℚ
  sac_b : ℚ
  stla : ℚ
  stlo : ℚ
  data : List ℚ
deriving DecidableEq

/-- `Trace.id` as obspy renders it: `network.station.location.channel`. -/
def Trace.tid (tr : Trace) : String :=
  tr.network ++ "." ++ tr.station ++ "." ++ tr.location ++ "." ++ tr.channel

/-- `TraceWindow`: the per-station-component bundle of traces, windows and
weights (class `TraceWindow` in `data_container.py`).  `windows` rows are
`(starttime, endtime)` pairs, so the numpy shape-(nwin, 2) invariant is
carried by the type. -/
structure TraceWindow where
  datalist : List (String × Trace) := []
  windows : List (ℚ × ℚ) := []
  init_weight : List ℚ := []
  latitude : Option ℚ := none
  longitude : Option ℚ := none
  event_latitude : Option ℚ := none
  event_longitude : Option ℚ := none
  tag : List (String × String) := []
  source : Option String := none
  path_dict : Option (List (String × String)) := none
deriving DecidableEq

/-- `TraceWindow.nwindows` property. -/
def TraceWindow.nwindows (t : TraceWindow) : Nat := t.windows.length

/-- Model of Python `str.split(sep)` for a single-character separator,
written by structural recursion on the character list (keeps empty fields,
and the empty string splits to one empty field, as in Python). -/
def splitOnChar (c : Char) : List Char → List (List Char)
  | [] => [[]]
  | x :: xs =>
    let r := splitOnChar c xs
    if x = c then [] :: r
    else
      match r with
      | [] => [[x]]
      | y :: ys => (x :: y) :: ys

/-- Python `station_string.split(sep)` on strings. -/
def pySplit (s : String) (c : Char) : List String :=
  (splitOnChar c s.toList).map (fun l => ⟨l⟩)

/-- Python `os.path.basename` on POSIX paths: everything after the final
slash. -/
def basename (s : String) : String := (pySplit s '/').getLastD s

/-- Python `s.lower()` (character-wise, ASCII suffices here). -/
def pyLower (s : String) : String := ⟨s.toList.map Char.toLower⟩

/-- `true` on `.ok`. -/
def exceptOk {α : Type} : Except String α → Bool
  | .ok _ => true
  | .error _ => false

/-- `true` on `.error`. -/
def exceptErr {α : Type} : Except String α → Bool
  | .ok _ => false
  | .error _ => true

/-- A Python `for` loop building one result per item, aborting at the first
raised exception. -/
def mapE (fn : α → Except String β) : List α → Except String (List β)
  | [] => .ok []
  | a :: l => do
    let b ← fn a
    let bs ← mapE fn l
    .ok (b :: bs)

@[simp] theorem ok_bind {ε : Type} {α β : Type u} (a : α)
    (f : α → Except ε β) : (Except.ok a >>= f : Except ε β) = f a := rfl

@[simp] theorem error_bind {ε : Type} {α β : Type u} (e : ε)
    (f : α → Except ε β) : (Except.error e >>= f : Except ε β) = .error e :=
  rfl

instance {ε α : Type} [DecidableEq ε] [DecidableEq α] :
    DecidableEq (Except ε α) := fun a b =>
  match a, b with
  | .ok x, .ok y =>
      if h : x = y then .isTrue (by rw [h]) else .isFalse (by simp [h])
  | .error x, .error y =>
      if h : x = y then .isTrue (by rw [h]) else .isFalse (by simp [h])
  | .ok _, .error _ => .isFalse (by simp)
  | .error _, .ok _ => .isFalse (by simp)

/-- A window row of the text format, already split into whitespace-separated
numeric tokens (the code does `f.readline().strip().split()` and converts
each used token with `float`). -/
abbrev WinRow := List ℚ

/-- One group block of the text window-file format: observed path line,
synthetic path line, declared window count line, then the window rows
physically present in the block. -/
structure TxtGroup where
  obsd_path : String
  synt_path : String
  nwindows : Nat
  rows : List WinRow
deriving DecidableEq

/-- A text window file: the declared group count from the first line and the
group blocks physically present. -/
structure TxtFile where
  ntrwins : Nat
  groups : List TxtGroup
deriving DecidableEq

/-- A text window file is well formed when the declared counts match the
content and every window row has 2 or 3 tokens (`start end [weight]`). -/
def TxtFile.WellFormed (f : TxtFile) : Prop :=
  f.ntrwins = f.groups.length ∧
    ∀ g ∈ f.groups, g.nwindows = g.rows.length ∧
      ∀ r ∈ g.rows, r.length = 2 ∨ r.length = 3

instance (f : TxtFile) : Decidable f.WellFormed := by
  unfold TxtFile.WellFormed; infer_instance

/-- One window row of `load_winfile_txt`: `content[0]` and `content[1]` are
start and end (IndexError if absent); the weight is `content[2]` exactly when
the row has 3 tokens and the caller's `initial_weight` otherwise. -/
def parseWinRow (content : WinRow) (initial_weight : ℚ) :
    Except String (ℚ × ℚ × ℚ) :=
  match content with
  | c0 :: c1 :: _ =>
      .ok (c0, c1,
        if content.length = 3 then content.getD 2 0 else initial_weight)
  | _ => .error "IndexError: window row has fewer than 2 tokens"

/-- Sequential reading of `declared` items from a stream of remaining items:
each loop iteration takes the next item, and running past the end of the
stream is a read error (in the source, `readline` on an exhausted file makes
the following `int(...)`/indexing fail). Items beyond the declared count are
left unread. -/
def readN (errMsg : String) (declared : Nat) (stream : List α) :
    Except String (List α) :=
  match declared, stream with
  | 0, _ => .ok []
  | _ + 1, [] => .error errMsg
  | n + 1, b :: rest => do
    let more ← readN errMsg n rest
    .ok (b :: more)

/-- One group block of `load_winfile_txt`: the two path lines were read,
then `nwindows` window rows are read and parsed, and the skeleton
`TraceWindow` is built carrying only windows, weights and `path_dict`. -/
def parseTxtGroup (g : TxtGroup) (initial_weight : ℚ) :
    Except String TraceWindow := do
  let rows ← readN "ValueError: ran out of window rows" g.nwindows g.rows
  let parsed ← mapE (fun content => parseWinRow content initial_weight) rows
  .ok { windows := parsed.map (fun p => (p.1, p.2.1)),
        init_weight := parsed.map (fun p => p.2.2),
        path_dict := some [("obsd", g.obsd_path), ("synt", g.synt_path)] }

/-- `DataContainer.load_winfile_txt`.  Returns the parsed skeleton list
together with the warnings logged (the `ntrwins == 0` branch logs a warning
and returns an empty list). -/
def load_winfile_txt (flexwin_file : String) (f : TxtFile)
    (initial_weight : ℚ) :
    Except String (List TraceWindow × List String) := do
  if f.ntrwins = 0 then
    .ok ([], ["Nothing in flexwinfile: " ++ flexwin_file])
  else do
    let blocks ← readN ("Error load in flexwin_file(" ++ flexwin_file ++
      ") due to: ran out of group blocks") f.ntrwins f.groups
    let trwins ← mapE (fun g => parseTxtGroup g initial_weight) blocks
    .ok (trwins, [])


/-- Modelled from the spec: the closed enumerated derivative-parameter set
`PAR_LIST` that `DataContainer.__init__` and `_check_parlist` validate
against is referenced but not defined in the provided sources.  Its names
follow the derivative-parameter enumeration in the loader comment of
`load_data_from_sac` (`Mrr, Mtt, Mpp, Mrt, Mrp, Mtp, dep, lat, lon, ctm,
hdr`), consistent with `const.NPARMAX = 11`. -/
def PAR_LIST : List String :=
  ["Mrr", "Mtt", "Mpp", "Mrt", "Mrp", "Mtp", "dep", "lat", "lon", "ctm", "hdr"]

/-- `DataContainer` state: the validated parameter list, the owned group
sequence, the per-window-file run log (group count, window count; wall-clock
elapsed time is not modelled) and the remembered archive map. -/
structure DataContainer where
  par_list : List String
  trwins : List TraceWindow
  load_info : List (String × (Nat × Nat))
  asdf_file_dict : Option (List (String × String))
deriving DecidableEq

/-- `DataContainer._check_parlist`: every name must be in `PAR_LIST`. -/
def _check_parlist (par_list : List String) : Bool :=
  par_list.all (fun par => decide (par ∈ PAR_LIST))

/-- The error message of `DataContainer.__init__` naming the rejected
parameter list. -/
def parlistErrMsg (par_list : List String) : String :=
  "par_list(" ++ String.intercalate ", " par_list ++ ") not within PAR_LIST"

/-- `DataContainer.__init__`. -/
def DataContainer.init (par_list : List String) : Except String DataContainer :=
  if ¬ _check_parlist par_list then
    .error (parlistErrMsg par_list)
  else
    .ok { par_list := par_list, trwins := [], load_info := [],
          asdf_file_dict := none }

/-- `DataContainer._get_counts`. -/
def _get_counts (trwins : List TraceWindow) : Nat × Nat :=
  (trwins.length, (trwins.map TraceWindow.nwindows).sum)

/-- The error message of `check_and_load_asdf_file` naming a missing key. -/
def missingKeyMsg (key : String) : String :=
  "key(" ++ key ++ ") in par_list is not in asdf_file_dict"

/-- `DataContainer.check_and_load_asdf_file`: first every necessary key is
checked against the supplied archive map, then one `ASDFDataSet` is opened
per necessary key.  The returned list records, in loop order, each archive
handle opened as the pair (key, archive file name). -/
def check_and_load_asdf_file (dc : DataContainer)
    (asdf_file_dict : List (String × String)) :
    Except String (List (String × String)) :=
  let necessary_keys := ["obsd", "synt"] ++ dc.par_list
  match necessary_keys.find? (fun key => (asdf_file_dict.lookup key).isNone) with
  | some key => .error (missingKeyMsg key)
  | none =>
      .ok (necessary_keys.map (fun key =>
        (key, (asdf_file_dict.lookup key).getD "")))

/-- The error message of `__calibrate_window_time_for_sac`. -/
def negWindowMsg (tid : String) : String :=
  "Window time(" ++ tid ++ ") of trace is smaller than zero"

/-- `DataContainer.__calibrate_window_time_for_sac`: every window start and
end is decreased by the observed trace's SAC `b` header.  After the loop the
indices `_ii`, `_jj` are those of the LAST window's end time, so the guard
examines only that entry; inside the guard both entries of the last window
are re-examined and a negative one raises.  With no window the loop leaves
`_ii` unbound (a NameError). -/
def __calibrate_window_time_for_sac (trace_obj : TraceWindow) :
    Except String TraceWindow :=
  match trace_obj.datalist.lookup "obsd" with
  | none => .error "KeyError: obsd"
  | some obsd =>
    let b_tshift := obsd.sac_b
    let ws := trace_obj.windows.map (fun w => (w.1 - b_tshift, w.2 - b_tshift))
    match ws.getLast? with
    | none => .error "NameError: name _ii is not defined"
    | some wlast =>
      if wlast.2 < 0 then
        if wlast.1 < 0 then .error (negWindowMsg obsd.tid)
        else if wlast.2 < 0 then .error (negWindowMsg obsd.tid)
        else .ok { trace_obj with windows := ws }
      else .ok { trace_obj with windows := ws }

/-- Python `int(...)` on an exact rational: truncation toward zero. -/
def pyInt (q : ℚ) : ℤ := Int.tdiv q.num q.den

/-- Python/numpy basic slicing `l[a:b]` with step 1: negative indices count
from the end, and both bounds are clamped to the array. -/
def pySlice (l : List ℚ) (a b : ℤ) : List ℚ :=
  let n : ℤ := l.length
  let s := if a < 0 then max (n + a) 0 else min a n
  let e := if b < 0 then max (n + b) 0 else min b n
  (l.drop s.toNat).take (e - s).toNat

/-- One loop iteration of `TraceWindow.obsd_energy`: window start and end are
converted to sample indices with the observed trace's `delta`, a span of at
most one index raises, otherwise the energy is the sum of the squared sliced
samples times `delta`. -/
def windowEnergy (obsd : Trace) (w : ℚ × ℚ) : Except String ℚ :=
  let istart := pyInt (w.1 / obsd.delta)
  let iend := pyInt (w.2 / obsd.delta)
  if iend - istart ≤ 1 then .error "Window length < 1, incorrect!"
  else
    .ok (((pySlice obsd.data istart iend).map
      (fun x => x ^ 2 * obsd.delta)).sum)

/-- `TraceWindow.obsd_energy` property. -/
def TraceWindow.obsd_energy (t : TraceWindow) : Except String (List ℚ) :=
  match t.datalist.lookup "obsd" with
  | none => .error "KeyError: obsd"
  | some obsd => mapE (windowEnergy obsd) t.windows

/-! ### Archive (ASDF) model -/

/-- The per-station content of an archive: optional inline coordinates,
the optional first-entry coordinates of a full StationXML inventory, the
waveform tag list (`get_waveform_tags`), and one trace stream per tag. -/
structure StationData where
  coordinates : Option (ℚ × ℚ)
  stationXML : Option (ℚ × ℚ)
  tags : List String
  streams : List (String × List Trace)
deriving DecidableEq

/-- An ASDF archive handle: `waveforms` maps `network_station` accessor
names to station data. -/
structure AsdfHandle where
  waveforms : List (String × StationData)
deriving DecidableEq

/-- The malformed-identifier message of `_get_station_loc_from_asdf` and
`_get_trace_from_asdf` when the split does not give 4 fields. -/
def splitErrMsg (station_info : List String) : String :=
  "Station string should be NW.STA.LOC.COMP. But current is not correct:" ++
    String.intercalate "." station_info

/-- The swapped-network/station message of `_get_station_loc_from_asdf` and
`_get_trace_from_asdf`. -/
def swapErrMsg (station_info : List String) : String :=
  "Station string should be NW.STA.LOC.COMP But current is: " ++
    String.intercalate "." station_info ++
    " You may place the network and station name in the wrong order"

/-- `DataContainer._get_station_loc_from_asdf`: the identifier must split
into 4 dot fields, and the network must be at most 2 characters OR-combined
with the station being more than 2; the coordinates come from the inline
`coordinates` record when present, else from the first inventory entry of
`StationXML`, and neither is an error. -/
def _get_station_loc_from_asdf (station_string : String)
    (asdf_handle : AsdfHandle) : Except String (ℚ × ℚ) :=
  let station_info := pySplit station_string '.'
  if station_info.length = 4 then
    let network := station_info.getD 0 ""
    let station := station_info.getD 1 ""
    if 3 ≤ network.length ∨ station.length ≤ 2 then
      .error (swapErrMsg station_info)
    else
      let station_name := network ++ "_" ++ station
      match asdf_handle.waveforms.lookup station_name with
      | none => .error ("AttributeError: " ++ station_name)
      | some st =>
        match st.coordinates with
        | some c => .ok c
        | none =>
          match st.stationXML with
          | some inv => .ok inv
          | none => .error "Cant extract station location"
  else .error (splitErrMsg station_info)

/-- The ambiguous-tag message of `_get_trace_from_asdf`. -/
def ambigTagMsg (tag_list : List String) : String :=
  "More that 1 data tags in obsd asdf file. For this case, you need " ++
    "specify obsd_tag:" ++ String.intercalate ", " tag_list

/-- `stream.select(network=..., station=..., location=..., channel=...)[0]`
of `_get_trace_from_asdf` followed by `tr.copy()`: the first trace of the
stream whose four identifier components match (the inputs contain no
wildcards), paired with the tag in use. -/
def extractFromStream (st : StationData) (t : String)
    (network station loc channel : String) : Except String (Trace × String) :=
  match st.streams.lookup t with
  | none => .error ("AttributeError: no waveform tag " ++ t)
  | some stream =>
    match (stream.filter (fun tr =>
        tr.network == network && tr.station == station &&
        tr.location == loc && tr.channel == channel)).head? with
    | none => .error "IndexError: list index out of range"
    | some tr => .ok (tr, t)

/-- `DataContainer._get_trace_from_asdf`: basename, 4-field split, the
AND-combined swapped-field check, tag disambiguation (an unspecified tag is
allowed only when exactly one tag exists), then channel-matched selection. -/
def _get_trace_from_asdf (station_string0 : String) (asdf_handle : AsdfHandle)
    (tag : Option String) : Except String (Trace × String) :=
  let station_string := basename station_string0
  let station_info := pySplit station_string '.'
  if station_info.length = 4 then
    let network := station_info.getD 0 ""
    let station := station_info.getD 1 ""
    let loc := station_info.getD 2 ""
    let channel := station_info.getD 3 ""
    if 3 ≤ network.length ∧ station.length ≤ 2 then
      .error (swapErrMsg station_info)
    else
      let station_name := network ++ "_" ++ station
      match asdf_handle.waveforms.lookup station_name with
      | none => .error ("AttributeError: " ++ station_name)
      | some st =>
        let tag_list := st.tags
        match tag with
        | none =>
          match tag_list with
          | [t0] => extractFromStream st t0 network station loc channel
          | _ => .error (ambigTagMsg tag_list)
        | some t => extractFromStream st t network station loc channel
  else .error (splitErrMsg station_info)

/-! ### Structured (json) window-file model -/

/-- One window record of the structured format. -/
structure JsonWinRecord where
  channel_id : String
  channel_id_2 : String
  relative_starttime : ℚ
  relative_endtime : ℚ
  initial_weighting : Option ℚ
deriving DecidableEq

/-- The nested mapping of the structured format:
station → channel → window record list. -/
abbrev JsonContent := List (String × List (String × List JsonWinRecord))

/-- The keyword parameters accepted by `TraceWindow.__init__`
(its signature in the source). -/
def traceWindowInitKeywords : List String :=
  ["datalist", "windows", "init_weight", "longitude", "latitude",
   "event_latitude", "event_longitude", "tag", "source", "path_dict"]

/-- A Python keyword call of `TraceWindow.__init__`: the interpreter checks
every supplied keyword against the accepted parameter names before the body
runs, and an unexpected keyword is a TypeError. -/
def callTraceWindowInit (kwargs : List String) (build : Unit → TraceWindow) :
    Except String TraceWindow :=
  match kwargs.find? (fun k => !(traceWindowInitKeywords.contains k)) with
  | some k =>
      .error ("TypeError: __init__() got an unexpected keyword argument " ++ k)
  | none => .ok (build ())

/-- One channel entry of `load_winfile_json`: an empty record list makes
`_chan_win[0]` an IndexError; otherwise the window and weight arrays are
built (default weight when `initial_weighting` is absent) and
`TraceWindow(win_time=..., obsd_id=..., synt_id=..., init_weight=...)` is
called with those keywords. -/
def parseJsonChannel (chan_win : List JsonWinRecord) (initial_weight : ℚ) :
    Except String TraceWindow :=
  match chan_win with
  | [] => .error "IndexError: list index out of range"
  | _ :: _ =>
    let win_time := chan_win.map (fun w =>
      (w.relative_starttime, w.relative_endtime))
    let win_weight := chan_win.map (fun w =>
      w.initial_weighting.getD initial_weight)
    callTraceWindowInit ["win_time", "obsd_id", "synt_id", "init_weight"]
      (fun _ => { windows := win_time, init_weight := win_weight })

/-- `DataContainer.load_winfile_json`: one `TraceWindow` construction per
channel entry, over all stations. -/
def load_winfile_json (content : JsonContent) (initial_weight : ℚ) :
    Except String (List TraceWindow) := do
  let nested ← mapE (fun sta =>
    mapE (fun chan => parseJsonChannel chan.2 initial_weight) sta.2) content
  .ok nested.flatten

/-! ### Path-convention (sac) loading and ingestion orchestration -/

/-- The readable part of the file system in path-convention mode:
`read(path)[0]` succeeds exactly on mapped paths. -/
abbrev SacFS := List (String × Trace)

/-- `obspy.read(path)[0]`. -/
def read1 (fs : SacFS) (path : String) : Except String Trace :=
  match fs.lookup path with
  | some tr => .ok tr
  | none => .error ("IOError: cannot read " ++ path)

/-- An externally supplied station table, pre-parsed: the spec treats plain
station-list text parsing (`load_station_from_text`, a trivial line split)
as out of scope, so the mapping `network_station` → (latitude, longitude,
elevation) is passed in directly. -/
abbrev StationDict := List (String × (ℚ × ℚ × ℚ))

/-- `DataContainer.load_data_from_sac`: resets `datalist`/`tag`, loads the
observed trace, calibrates window times in `relative_time` mode, loads the
synthetic trace and one derivative trace per parameter (path = synthetic
path + `.` + parameter name), then resolves station coordinates from the
synthetic SAC headers or the external table keyed by `network_station` of
the observed trace, and marks the source.  The returned value is the net
effect of the in-place mutation on a successful call. -/
def load_data_from_sac (fs : SacFS) (par_list : List String)
    (trace_obj : TraceWindow) (tag : String) (mode : String)
    (station_dict : Option StationDict) : Except String TraceWindow := do
  let t := { trace_obj with
             datalist := ([] : List (String × Trace)),
             tag := ([] : List (String × String)) }
  let path_dict ← match trace_obj.path_dict with
    | some pd => Except.ok pd
    | none => Except.error "TypeError: path_dict is None"
  let obsd_path ← match path_dict.lookup "obsd" with
    | some p => Except.ok p
    | none => Except.error "KeyError: obsd"
  let synt_path ← match path_dict.lookup "synt" with
    | some p => Except.ok p
    | none => Except.error "KeyError: synt"
  let obsd ← read1 fs obsd_path
  let t := { t with datalist := t.datalist ++ [("obsd", obsd)],
                    tag := t.tag ++ [("obsd", tag)] }
  let t ← if mode = "relative_time" then __calibrate_window_time_for_sac t
          else Except.ok t
  let synt ← read1 fs synt_path
  let t := { t with datalist := t.datalist ++ [("synt", synt)],
                    tag := t.tag ++ [("synt", tag)] }
  let t ← par_list.foldlM (fun t deriv_par => do
      let d ← read1 fs (synt_path ++ "." ++ deriv_par)
      Except.ok { t with datalist := t.datalist ++ [(deriv_par, d)],
                         tag := t.tag ++ [(deriv_par, tag)] }) t
  let t ← match station_dict with
    | none =>
        Except.ok { t with latitude := some synt.stla,
                           longitude := some synt.stlo }
    | some sd =>
        let key := obsd.network ++ "_" ++ obsd.station
        match sd.lookup key with
        | some v => Except.ok { t with latitude := some v.1,
                                       longitude := some v.2.1 }
        | none => Except.error ("KeyError: " ++ key)
  Except.ok { t with source := some "sac" }

/-- Python dict assignment `d[k] = v` on an association list. -/
def dictSet (d : List (String × α)) (k : String) (v : α) :
    List (String × α) :=
  if (d.lookup k).isNone then d ++ [(k, v)]
  else d.map (fun kv => if kv.1 = k then (k, v) else kv)

/-- `DataContainer.add_measurements_from_sac` restricted to the text window
format: mode validation, window-file parsing, per-group waveform loading,
and run-log recording.  The pre-parsed `content` stands for the text of
`flexwinfile`; on success the container holds the loaded groups (the source
mutates the appended skeletons in place). -/
def add_measurements_from_sac (dc : DataContainer) (fs : SacFS)
    (flexwinfile : String) (content : TxtFile) (tag : String)
    (initial_weight : ℚ) (station_dict : Option StationDict)
    (window_time_mode : String) : Except String DataContainer := do
  let window_time_mode := pyLower window_time_mode
  if window_time_mode ∉ (["obsolute_time", "relative_time"] : List String) then
    .error ("load_winfile mode(" ++ window_time_mode ++ ") incorrect")
  else do
    let parsed ← load_winfile_txt flexwinfile content initial_weight
    let trwins := parsed.1
    let loaded ← mapE (fun t =>
      load_data_from_sac fs dc.par_list t tag window_time_mode station_dict)
      trwins
    .ok { dc with trwins := dc.trwins ++ loaded,
                  load_info := dictSet dc.load_info flexwinfile
                    (_get_counts trwins) }

/-! ### Deduplicating re-export -/

/-- The attribute names a `DataContainer` instance carries (assigned in
`__init__`; the name-mangled private index is included).  Python attribute
access resolves against this set. -/
def dataContainerAttrs : List String :=
  ["par_list", "trwins", "_load_info", "_asdf_file_dict",
   "_DataContainer__index"]

/-- `self.stations` attribute access inside `_sort_new_synt`: succeeds only
if the instance carries an attribute of that name. -/
def getattrStations (dc : DataContainer) : Except String (List TraceWindow) :=
  if "stations" ∈ dataContainerAttrs then .ok dc.trwins
  else .error "AttributeError: DataContainer instance has no attribute stations"

/-- Appending a window under its tag key (`new_synt_dict[tag].append`). -/
def dictAppendWin (d : List (String × List TraceWindow)) (k : String)
    (w : TraceWindow) : List (String × List TraceWindow) :=
  if (d.lookup k).isNone then d ++ [(k, [w])]
  else d.map (fun kv => if kv.1 = k then (kv.1, kv.2 ++ [w]) else kv)

/-- `DataContainer._sort_new_synt`: iterates `self.stations` grouping the
windows by their synthetic provenance tag; the function body ends without a
return statement, so the caller receives `None`. -/
def _sort_new_synt (dc : DataContainer) :
    Except String (Option (List (String × List TraceWindow))) := do
  let stations ← getattrStations dc
  let _new_synt_dict ← stations.foldlM
    (fun d window =>
      match window.tag.lookup "synt" with
      | none => Except.error "KeyError: synt"
      | some tg => Except.ok (dictAppendWin d tg window))
    ([] : List (String × List TraceWindow))
  .ok none

/-- The deduplicating write loop of `write_new_synt_asdf` for one tag: a
window whose `new_synt` identifier was already added is skipped, every other
window's `new_synt` trace is written. -/
def writeDedup (win_array : List TraceWindow) : Except String (List Trace) :=
  (win_array.foldlM
    (fun (acc : List String × List Trace) (window : TraceWindow) =>
      match window.datalist.lookup "new_synt" with
      | none => Except.error "KeyError: new_synt"
      | some new_synt =>
        if new_synt.tid ∈ acc.1 then Except.ok acc
        else Except.ok (acc.1 ++ [new_synt.tid], acc.2 ++ [new_synt]))
    (([], []) : List String × List Trace)).map Prod.snd

/-- `DataContainer.write_new_synt_asdf`: obtains the tag grouping from
`_sort_new_synt` and iterates it with `.iteritems()` (iterating `None`
raises), writing one deduplicated archive per tag and then copying station
metadata from the reference synthetic archive. -/
def write_new_synt_asdf (dc : DataContainer) (_filename : String) :
    Except String (List (String × List Trace)) := do
  let new_synt_dict ← _sort_new_synt dc
  match new_synt_dict with
  | none => .error "AttributeError: NoneType object has no attribute iteritems"
  | some d =>
    d.foldlM (fun outs tagwins => do
        let written ← writeDedup tagwins.2
        Except.ok (outs ++ [(tagwins.1, written)]))
      ([] : List (String × List Trace))

/-! ### General lemmas about the embedding -/

/-- Reading exactly as many items as the stream holds returns the stream. -/
theorem readN_length_eq (msg : String) (l : List α) :
    readN msg l.length l = .ok l := by
  induction l with
  | nil => rfl
  | cons a l ih => simp [List.length_cons, readN, ih]

/-- The Python loop `mapE` when every element maps successfully. -/
theorem mapE_ok_of_forall (l : List α) (fn : α → Except String β)
    (spec : α → β) (h : ∀ a ∈ l, fn a = .ok (spec a)) :
    mapE fn l = .ok (l.map spec) := by
  induction l with
  | nil => rfl
  | cons a l ih =>
    have ha := h a (by simp)
    have ih2 := ih (fun x hx => h x (by simp [hx]))
    simp [mapE, ha, ih2]

/-- The Python loop `mapE` fails when some element fails. -/
theorem mapE_error_of_exists (l : List α) (fn : α → Except String β)
    (h : ∃ a ∈ l, ∃ msg, fn a = .error msg) :
    ∃ msg, mapE fn l = .error msg := by
  induction l with
  | nil => simp at h
  | cons a l ih =>
    obtain ⟨x, hx, msg, hmsg⟩ := h
    rcases List.mem_cons.mp hx with rfl | hxl
    · exact ⟨msg, by simp [mapE, hmsg]⟩
    · cases hfa : fn a with
      | error m => exact ⟨m, by simp [mapE, hfa]⟩
      | ok b =>
        obtain ⟨m, hm⟩ := ih ⟨x, hxl, msg, hmsg⟩
        exact ⟨m, by simp [mapE, hfa, hm]⟩

/-! ### C1: line-format parsing -/

/-- The closed form of the skeleton that one well-formed text group block
parses to. -/
def txtGroupResult (g : TxtGroup) (initial_weight : ℚ) : TraceWindow :=
  { windows := g.rows.map (fun r => (r.getD 0 0, r.getD 1 0)),
    init_weight := g.rows.map (fun r =>
      if r.length = 3 then r.getD 2 0 else initial_weight),
    path_dict := some [("obsd", g.obsd_path), ("synt", g.synt_path)] }

/-- A group block with matching declared window count and rows of at least
2 tokens parses to its closed form. -/
theorem parseTxtGroup_eq (g : TxtGroup) (iw : ℚ)
    (hn : g.nwindows = g.rows.length) (hr : ∀ r ∈ g.rows, 2 ≤ r.length) :
    parseTxtGroup g iw = .ok (txtGroupResult g iw) := by
  unfold parseTxtGroup
  rw [hn, readN_length_eq]
  have hmap : mapE (fun content => parseWinRow content iw) g.rows =
      .ok (g.rows.map (fun r => (r.getD 0 0, r.getD 1 0,
        if r.length = 3 then r.getD 2 0 else iw))) := by
    apply mapE_ok_of_forall
    intro r hrmem
    have h2 := hr r hrmem
    match r, h2 with
    | c0 :: c1 :: rest, _ => simp [parseWinRow]
  rw [ok_bind, hmap, ok_bind]
  simp [txtGroupResult, List.map_map, Function.comp]

/-- C1: for every well-formed line-format window file, parsing succeeds and
returns exactly the declared number of groups; each group carries the
observed path, the synthetic path, and exactly its declared number of
windows, one `(start, end)` pair per row; a row's weight is its third token
when the row has three tokens and the caller-supplied initial weight when it
has only two. -/
theorem c1_load_winfile_txt_wellformed (flexwin_file : String) (f : TxtFile)
    (initial_weight : ℚ) (hwf : f.WellFormed) :
    ∃ warns,
      load_winfile_txt flexwin_file f initial_weight =
        .ok (f.groups.map (fun g => txtGroupResult g initial_weight), warns) ∧
      (f.groups.map (fun g => txtGroupResult g initial_weight)).length =
        f.ntrwins ∧
      ∀ g ∈ f.groups,
        (txtGroupResult g initial_weight).path_dict =
          some [("obsd", g.obsd_path), ("synt", g.synt_path)] ∧
        (txtGroupResult g initial_weight).nwindows = g.nwindows ∧
        (txtGroupResult g initial_weight).windows =
          g.rows.map (fun r => (r.getD 0 0, r.getD 1 0)) ∧
        (txtGroupResult g initial_weight).init_weight =
          g.rows.map (fun r =>
            if r.length = 3 then r.getD 2 0 else initial_weight) := by
  obtain ⟨hcount, hgroups⟩ := hwf
  have hside : ∀ g ∈ f.groups,
      (txtGroupResult g initial_weight).path_dict =
        some [("obsd", g.obsd_path), ("synt", g.synt_path)] ∧
      (txtGroupResult g initial_weight).nwindows = g.nwindows ∧
      (txtGroupResult g initial_weight).windows =
        g.rows.map (fun r => (r.getD 0 0, r.getD 1 0)) ∧
      (txtGroupResult g initial_weight).init_weight =
        g.rows.map (fun r =>
          if r.length = 3 then r.getD 2 0 else initial_weight) := by
    intro g hg
    obtain ⟨hn, -⟩ := hgroups g hg
    refine ⟨rfl, ?_, rfl, rfl⟩
    simp [txtGroupResult, TraceWindow.nwindows, hn]
  by_cases h0 : f.ntrwins = 0
  · have hempty : f.groups = [] := by
      cases hg : f.groups with
      | nil => rfl
      | cons a l => rw [hcount, hg] at h0; simp at h0
    refine ⟨["Nothing in flexwinfile: " ++ flexwin_file], ?_, ?_, hside⟩
    · simp [load_winfile_txt, h0, hempty]
    · simp [hempty, h0]
  · have hparse : ∀ g ∈ f.groups,
        parseTxtGroup g initial_weight = .ok (txtGroupResult g initial_weight) := by
      intro g hg
      obtain ⟨hn, hr⟩ := hgroups g hg
      exact parseTxtGroup_eq g initial_weight hn
        (fun r hrm => by rcases hr r hrm with h2 | h3 <;> omega)
    refine ⟨[], ?_, by simp [hcount], hside⟩
    simp only [load_winfile_txt, h0, if_false]
    rw [hcount, readN_length_eq, ok_bind,
      mapE_ok_of_forall _ _ _ hparse, ok_bind]

/-- Concrete well-formed two-group window file for the C1 witness. -/
def c1File : TxtFile :=
  { ntrwins := 2,
    groups := [
      { obsd_path := "obsd/II.AAK.00.BHZ.sac",
        synt_path := "synt/II.AAK.00.BHZ.sac",
        nwindows := 2, rows := [[10, 20], [30, 45, 2]] },
      { obsd_path := "obsd/II.ABKT.00.BHZ.sac",
        synt_path := "synt/II.ABKT.00.BHZ.sac",
        nwindows := 1, rows := [[5, 15]] } ] }

/-- C1 witness: the theorem applied at a concrete well-formed file. -/
theorem c1_load_winfile_txt_wellformed_witness :
    ∃ warns, load_winfile_txt "flexwin.txt" c1File 1 =
      .ok (c1File.groups.map (fun g => txtGroupResult g 1), warns) := by
  obtain ⟨warns, h, -⟩ :=
    c1_load_winfile_txt_wellformed "flexwin.txt" c1File 1 (by decide)
  exact ⟨warns, h⟩

/-! ### C10: zero declared groups -/

/-- C10: parsing a line-format window file whose declared group count is 0
returns an empty group list with the condition logged as a warning, no error
is raised, and an ingestion call over such a file leaves the container
unchanged apart from the run-log entry. -/
theorem c10_zero_groups (dc : DataContainer) (fs : SacFS)
    (flexwinfile : String) (content : TxtFile) (tag : String)
    (initial_weight : ℚ) (station_dict : Option StationDict)
    (window_time_mode : String)
    (h0 : content.ntrwins = 0)
    (hmode : pyLower window_time_mode ∈
      (["obsolute_time", "relative_time"] : List String)) :
    load_winfile_txt flexwinfile content initial_weight =
      .ok ([], ["Nothing in flexwinfile: " ++ flexwinfile]) ∧
    add_measurements_from_sac dc fs flexwinfile content tag initial_weight
        station_dict window_time_mode =
      .ok { dc with load_info := dictSet dc.load_info flexwinfile (0, 0) } := by
  have h1 : load_winfile_txt flexwinfile content initial_weight =
      .ok ([], ["Nothing in flexwinfile: " ++ flexwinfile]) := by
    simp [load_winfile_txt, h0]
  refine ⟨h1, ?_⟩
  simp [add_measurements_from_sac, hmode, h1, mapE, _get_counts,
    TraceWindow.nwindows]

/-- C10 witness: the theorem applied to a concrete empty window file and a
concrete container. -/
theorem c10_zero_groups_witness :
    add_measurements_from_sac
        { par_list := ["dep"], trwins := [], load_info := [],
          asdf_file_dict := none }
        [] "empty.txt" { ntrwins := 0, groups := [] } "tag1" 1 none
        "relative_time" =
      .ok { par_list := ["dep"], trwins := [],
            load_info := [("empty.txt", (0, 0))], asdf_file_dict := none } := by
  have h := (c10_zero_groups
    { par_list := ["dep"], trwins := [], load_info := [],
      asdf_file_dict := none }
    [] "empty.txt" { ntrwins := 0, groups := [] } "tag1" 1 none
    "relative_time" rfl (by decide)).2
  simpa [dictSet] using h

/-! ### C5: parameter-list validation and immutability -/

/-- C5: constructing a `DataContainer` succeeds for every parameter list all
of whose names are in the closed set `PAR_LIST`, raises an error naming the
offending list otherwise, and the accepted list is never changed afterwards
by the embedded container-mutating operation. -/
theorem c5_parlist_validation :
    (∀ par_list : List String, (∀ p ∈ par_list, p ∈ PAR_LIST) →
      DataContainer.init par_list =
        .ok { par_list := par_list, trwins := [], load_info := [],
              asdf_file_dict := none }) ∧
    (∀ par_list : List String, (∃ p ∈ par_list, p ∉ PAR_LIST) →
      DataContainer.init par_list = .error (parlistErrMsg par_list)) ∧
    (∀ dc fs flexwinfile content tag iw sd mode dc',
      add_measurements_from_sac dc fs flexwinfile content tag iw sd mode =
        .ok dc' →
      dc'.par_list = dc.par_list) := by
  refine ⟨?_, ?_, ?_⟩
  · intro par_list h
    have hc : _check_parlist par_list = true := by
      simp [_check_parlist, List.all_eq_true]
      exact h
    simp [DataContainer.init, hc]
  · intro par_list h
    obtain ⟨p, hp, hnot⟩ := h
    have hc : _check_parlist par_list = false := by
      simp [_check_parlist, List.all_eq_true]
      exact ⟨p, hp, hnot⟩
    simp [DataContainer.init, hc]
  · intro dc fs flexwinfile content tag iw sd mode dc' h
    by_cases hm : pyLower mode ∈ (["obsolute_time", "relative_time"] : List String)
    · cases hp : load_winfile_txt flexwinfile content iw with
      | error e => simp [add_measurements_from_sac, hm, hp] at h
      | ok p =>
        cases hl : mapE (fun t =>
            load_data_from_sac fs dc.par_list t tag (pyLower mode) sd) p.1 with
        | error e => simp [add_measurements_from_sac, hm, hp, hl] at h
        | ok loaded =>
          simp [add_measurements_from_sac, hm, hp, hl] at h
          rw [← h]
    · simp [add_measurements_from_sac, hm] at h

/-- C5 witness: the theorem applied at a concrete accepted parameter list. -/
theorem c5_parlist_validation_witness :
    DataContainer.init ["dep", "Mrr"] =
      .ok { par_list := ["dep", "Mrr"], trwins := [], load_info := [],
            asdf_file_dict := none } :=
  c5_parlist_validation.1 ["dep", "Mrr"] (by decide)

/-! ### C2: legacy time-base calibration -/

/-- Concrete observed trace with a zero SAC begin time for the C2 input. -/
def c2Obsd : Trace :=
  { network := "II", station := "AAK", location := "00", channel := "BHZ",
    delta := 1, sac_b := 0, stla := 42, stlo := 74, data := [] }

/-- Concrete group whose first window has a negative end time and whose last
window does not. -/
def c2TraceWin : TraceWindow :=
  { datalist := [("obsd", c2Obsd)],
    windows := [(-5, -1), (0, 10)],
    init_weight := [1, 1] }

/-- C2 counterexample: calibration returns successfully on a group in which
a window (the first, not the last) still has a negative end time after the
shift, so the operation does not raise for every window with a negative end
time. -/
theorem c2_calibration_counterexample :
    ∃ t, __calibrate_window_time_for_sac c2TraceWin = .ok t ∧
      ∃ w ∈ t.windows, w.2 < 0 := by
  have h : __calibrate_window_time_for_sac c2TraceWin =
      .ok { c2TraceWin with windows := [(-5, -1), (0, 10)] } := by
    norm_num [__calibrate_window_time_for_sac, c2TraceWin, c2Obsd,
      List.lookup, List.getLast?]
  exact ⟨_, h, ⟨(-5, -1), by simp, by norm_num⟩⟩

/-- C2 (amended): during legacy calibration every window start and end time
of the group is decreased by the observed waveform's recorded start-time
offset, but the operation raises exactly when the single examined entry -
the end time of the LAST window of the group - is negative after the shift
(for a nonempty group). -/
theorem c2_calibration_amended (t : TraceWindow) (obsd : Trace)
    (h : t.datalist.lookup "obsd" = some obsd) (wlast : ℚ × ℚ)
    (hlast : (t.windows.map
      (fun w => (w.1 - obsd.sac_b, w.2 - obsd.sac_b))).getLast? = some wlast) :
    (wlast.2 < 0 →
      __calibrate_window_time_for_sac t = .error (negWindowMsg obsd.tid)) ∧
    (0 ≤ wlast.2 →
      __calibrate_window_time_for_sac t =
        .ok { t with
              windows := (t.windows.map
                (fun w => (w.1 - obsd.sac_b, w.2 - obsd.sac_b))) }) := by
  constructor
  · intro hneg
    by_cases h1 : wlast.1 < 0 <;>
      simp [__calibrate_window_time_for_sac, h, hlast, hneg, h1]
  · intro hge
    simp [__calibrate_window_time_for_sac, h, hlast, not_lt.mpr hge]

/-- Concrete observed trace with SAC begin time 1 for the C2 witness. -/
def c2WitObsd : Trace :=
  { network := "II", station := "AAK", location := "00", channel := "BHZ",
    delta := 1, sac_b := 1, stla := 42, stlo := 74, data := [] }

/-- C2 witness: the amended theorem applied at a concrete group whose single
window stays nonnegative after the shift. -/
theorem c2_calibration_amended_witness :
    __calibrate_window_time_for_sac
        { datalist := [("obsd", c2WitObsd)], windows := [(2, 10)],
          init_weight := [1] } =
      .ok { datalist := [("obsd", c2WitObsd)], windows := [(1, 9)],
            init_weight := [1] } := by
  have h := (c2_calibration_amended
    { datalist := [("obsd", c2WitObsd)], windows := [(2, 10)],
      init_weight := [1] }
    c2WitObsd rfl (2 - c2WitObsd.sac_b, 10 - c2WitObsd.sac_b) rfl).2
    (by norm_num [c2WitObsd])
  rw [h]
  norm_num [c2WitObsd]

/-! ### C7: observed-energy computation -/

/-- The energy of an all-ones sample list is its length times `dt`. -/
theorem sum_sq_const_one (l : List ℚ) (dt : ℚ) (h : ∀ x ∈ l, x = 1) :
    (l.map (fun x => x ^ 2 * dt)).sum = l.length * dt := by
  induction l with
  | nil => simp
  | cons a l ih =>
    have ha := h a (by simp)
    have ih2 := ih (fun x hx => h x (by simp [hx]))
    simp [ha, ih2]
    ring

/-- C7: the observed-energy computation raises whenever some window resolves
to at most one sample interval at the observed sampling interval, otherwise
returns per window the sum of the squared sliced samples times the interval;
for a slice of all-unit amplitudes that value is the slice length times the
interval. -/
theorem c7_obsd_energy (t : TraceWindow) (obsd : Trace)
    (h : t.datalist.lookup "obsd" = some obsd) :
    ((∃ w ∈ t.windows,
        pyInt (w.2 / obsd.delta) - pyInt (w.1 / obsd.delta) ≤ 1) →
      ∃ msg, t.obsd_energy = .error msg) ∧
    ((∀ w ∈ t.windows,
        1 < pyInt (w.2 / obsd.delta) - pyInt (w.1 / obsd.delta)) →
      t.obsd_energy = .ok (t.windows.map (fun w =>
        ((pySlice obsd.data (pyInt (w.1 / obsd.delta))
            (pyInt (w.2 / obsd.delta))).map
          (fun x => x ^ 2 * obsd.delta)).sum))) ∧
    (∀ w : ℚ × ℚ,
      (∀ x ∈ pySlice obsd.data (pyInt (w.1 / obsd.delta))
          (pyInt (w.2 / obsd.delta)), x = 1) →
      ((pySlice obsd.data (pyInt (w.1 / obsd.delta))
          (pyInt (w.2 / obsd.delta))).map (fun x => x ^ 2 * obsd.delta)).sum =
        (pySlice obsd.data (pyInt (w.1 / obsd.delta))
          (pyInt (w.2 / obsd.delta))).length * obsd.delta) := by
  refine ⟨?_, ?_, ?_⟩
  · intro hex
    obtain ⟨w, hw, hshort⟩ := hex
    have herr : ∃ msg, windowEnergy obsd w = .error msg :=
      ⟨"Window length < 1, incorrect!",
        by unfold windowEnergy; rw [if_pos hshort]⟩
    simp only [TraceWindow.obsd_energy, h]
    exact mapE_error_of_exists _ _ ⟨w, hw, herr⟩
  · intro hall
    simp only [TraceWindow.obsd_energy, h]
    apply mapE_ok_of_forall
    intro w hw
    unfold windowEnergy
    rw [if_neg (not_le.mpr (hall w hw))]
  · intro w hones
    exact sum_sq_const_one _ _ hones

/-- Concrete unit-amplitude observed trace for the C7 witness. -/
def c7Obsd : Trace :=
  { network := "II", station := "AAK", location := "00", channel := "BHZ",
    delta := 1, sac_b := 0, stla := 42, stlo := 74,
    data := [1, 1, 1, 1, 1] }

/-- Concrete group with one 3-sample-interval window for the C7 witness. -/
def c7TraceWin : TraceWindow :=
  { datalist := [("obsd", c7Obsd)], windows := [(0, 3)], init_weight := [1] }

/-- C7 witness: the theorem applied at a unit-amplitude constant signal with
a window of 3 sample intervals at interval 1 gives energy 3. -/
theorem c7_obsd_energy_witness : c7TraceWin.obsd_energy = .ok [3] := by
  have hall : ∀ w ∈ c7TraceWin.windows,
      1 < pyInt (w.2 / c7Obsd.delta) - pyInt (w.1 / c7Obsd.delta) := by
    intro w hw
    simp only [c7TraceWin, List.mem_singleton] at hw
    subst hw
    norm_num [c7Obsd, pyInt]
  have h := ((c7_obsd_energy c7TraceWin c7Obsd rfl).2.1 hall)
  rw [h]
  have hs : pySlice c7Obsd.data (pyInt ((0 : ℚ) / c7Obsd.delta))
      (pyInt ((3 : ℚ) / c7Obsd.delta)) = [1, 1, 1] := by
    norm_num [c7Obsd, pyInt, pySlice]
    rfl
  simp only [c7TraceWin, List.map_cons, List.map_nil]
  rw [hs]
  norm_num [c7Obsd]

/-! ### C9: archive-map key validation -/

/-- C9: archive-based ingestion checks the archive map for `obsd`, `synt`
and every container parameter before any archive is opened, raising an error
naming a missing key; when every key is present exactly one archive handle
is opened per necessary key (in loop order). -/
theorem c9_archive_map_keys (dc : DataContainer)
    (asdf_file_dict : List (String × String)) :
    ((∃ k ∈ ["obsd", "synt"] ++ dc.par_list, asdf_file_dict.lookup k = none) →
      ∃ k ∈ ["obsd", "synt"] ++ dc.par_list,
        asdf_file_dict.lookup k = none ∧
        check_and_load_asdf_file dc asdf_file_dict =
          .error (missingKeyMsg k)) ∧
    ((∀ k ∈ ["obsd", "synt"] ++ dc.par_list,
        (asdf_file_dict.lookup k).isSome) →
      check_and_load_asdf_file dc asdf_file_dict =
        .ok ((["obsd", "synt"] ++ dc.par_list).map (fun key =>
          (key, (asdf_file_dict.lookup key).getD ""))) ∧
      ((["obsd", "synt"] ++ dc.par_list).map (fun key =>
          (key, (asdf_file_dict.lookup key).getD ""))).map Prod.fst =
        ["obsd", "synt"] ++ dc.par_list ∧
      ((["obsd", "synt"] ++ dc.par_list).Nodup →
        ∀ k ∈ ["obsd", "synt"] ++ dc.par_list,
          (((["obsd", "synt"] ++ dc.par_list).map (fun key =>
            (key, (asdf_file_dict.lookup key).getD ""))).map
              Prod.fst).count k = 1)) := by
  constructor
  · intro hex
    have hfind : (((["obsd", "synt"] ++ dc.par_list)).find?
        (fun key => (asdf_file_dict.lookup key).isNone)).isSome := by
      rw [List.find?_isSome]
      obtain ⟨k, hk, hnone⟩ := hex
      exact ⟨k, hk, by simp [hnone]⟩
    cases hf : (["obsd", "synt"] ++ dc.par_list).find?
        (fun key => (asdf_file_dict.lookup key).isNone) with
    | none => rw [hf] at hfind; simp at hfind
    | some k =>
      refine ⟨k, List.mem_of_find?_eq_some hf, ?_, ?_⟩
      · have := List.find?_some hf
        simpa [Option.isNone_iff_eq_none] using this
      · simp only [check_and_load_asdf_file, hf]
  · intro hall
    have hfind : (["obsd", "synt"] ++ dc.par_list).find?
        (fun key => (asdf_file_dict.lookup key).isNone) = none := by
      rw [List.find?_eq_none]
      intro k hk
      simp only [Option.isNone_iff_eq_none]
      exact Option.isSome_iff_ne_none.mp (hall k hk)
    refine ⟨by simp only [check_and_load_asdf_file, hfind], ?_, ?_⟩
    · simp [Function.comp_def]
    · intro hnod k hk
      have hmap : ((["obsd", "synt"] ++ dc.par_list).map (fun key =>
          (key, (asdf_file_dict.lookup key).getD ""))).map Prod.fst =
          ["obsd", "synt"] ++ dc.par_list := by simp [Function.comp_def]
      rw [hmap]
      exact List.count_eq_one_of_mem hnod hk

/-- Concrete container and complete archive map for the C9 witness. -/
def c9Dc : DataContainer :=
  { par_list := ["dep"], trwins := [], load_info := [],
    asdf_file_dict := none }

/-- C9 witness: the theorem applied at a complete concrete archive map. -/
theorem c9_archive_map_keys_witness :
    check_and_load_asdf_file c9Dc
        [("obsd", "obsd.h5"), ("synt", "synt.h5"), ("dep", "dep.h5")] =
      .ok [("obsd", "obsd.h5"), ("synt", "synt.h5"), ("dep", "dep.h5")] := by
  have h := ((c9_archive_map_keys c9Dc
    [("obsd", "obsd.h5"), ("synt", "synt.h5"), ("dep", "dep.h5")]).2
    (by decide)).1
  rw [h]
  decide

/-! ### C3: station-identifier validation -/

/-- Concrete trace stored under the long-network identifier for the C3
counterexample. -/
def c3Trace : Trace :=
  { network := "ABC", station := "STAT", location := "00", channel := "BHZ",
    delta := 1, sac_b := 0, stla := 10, stlo := 20, data := [1] }

/-- Concrete trace stored under `II_AAK` for the C3 concrete cases. -/
def c3AakTrace : Trace :=
  { network := "II", station := "AAK", location := "00", channel := "BHZ",
    delta := 1, sac_b := 0, stla := 42, stlo := 74, data := [1] }

/-- Concrete archive holding `ABC_STAT` and `II_AAK`, each with one tag. -/
def c3Handle : AsdfHandle :=
  { waveforms := [
      ("ABC_STAT",
        { coordinates := some (10, 20), stationXML := none,
          tags := ["synthetic"],
          streams := [("synthetic", [c3Trace])] }),
      ("II_AAK",
        { coordinates := some (42, 74), stationXML := none,
          tags := ["synthetic"],
          streams := [("synthetic", [c3AakTrace])] })] }

/-- C3 counterexample: on identifier `ABC.STAT.00.BHZ` (3-character network,
4-character station) station-location resolution raises its swapped-field
validation error while trace extraction runs past validation and succeeds -
the same validation rule does not govern both operations, refuting the
claimed OR-rule for extraction. -/
theorem c3_validation_counterexample :
    _get_station_loc_from_asdf "ABC.STAT.00.BHZ" c3Handle =
      .error (swapErrMsg ["ABC", "STAT", "00", "BHZ"]) ∧
    _get_trace_from_asdf "ABC.STAT.00.BHZ" c3Handle none =
      .ok (c3Trace, "synthetic") := by
  constructor <;> decide

/-- C3 (amended): both resolvers raise a validation error rendering the
split fields on identifiers that do not split into exactly 4 dot fields;
past that, station-location resolution raises the swapped-field error when
the network is 3 or more characters OR the station at most 2, while trace
extraction raises it only when the network is 3 or more characters AND the
station at most 2; `II.AAK.00.BHZ` passes both and `AAKII.00.BHZ` (3 fields)
raises in both. -/
theorem c3_station_key_validation :
    (∀ s h network station lc ch,
      pySplit s '.' = [network, station, lc, ch] →
      (3 ≤ network.length ∨ station.length ≤ 2) →
      _get_station_loc_from_asdf s h =
        .error (swapErrMsg [network, station, lc, ch])) ∧
    (∀ s h tg network station lc ch, basename s = s →
      pySplit s '.' = [network, station, lc, ch] →
      3 ≤ network.length → station.length ≤ 2 →
      _get_trace_from_asdf s h tg =
        .error (swapErrMsg [network, station, lc, ch])) ∧
    (∀ s h, (pySplit s '.').length ≠ 4 →
      _get_station_loc_from_asdf s h =
        .error (splitErrMsg (pySplit s '.'))) ∧
    (∀ s h tg, basename s = s → (pySplit s '.').length ≠ 4 →
      _get_trace_from_asdf s h tg = .error (splitErrMsg (pySplit s '.'))) ∧
    (_get_station_loc_from_asdf "II.AAK.00.BHZ" c3Handle = .ok (42, 74)) ∧
    (_get_trace_from_asdf "II.AAK.00.BHZ" c3Handle none =
      .ok (c3AakTrace, "synthetic")) ∧
    (_get_station_loc_from_asdf "AAKII.00.BHZ" c3Handle =
      .error (splitErrMsg ["AAKII", "00", "BHZ"])) ∧
    (_get_trace_from_asdf "AAKII.00.BHZ" c3Handle none =
      .error (splitErrMsg ["AAKII", "00", "BHZ"])) := by
  refine ⟨?_, ?_, ?_, ?_, by decide, by decide, by decide, by decide⟩
  · intro s h network station lc ch hsplit hval
    simp [_get_station_loc_from_asdf, hsplit, hval]
  · intro s h tg network station lc ch hb hsplit h3 h2
    simp [_get_trace_from_asdf, hb, hsplit, h3, h2]
  · intro s h hlen
    simp [_get_station_loc_from_asdf, hlen]
  · intro s h tg hb hlen
    simp [_get_trace_from_asdf, hb, hlen]

/-- C3 witness: the amended theorem applied at the concrete
swapped-looking identifier. -/
theorem c3_station_key_validation_witness :
    _get_station_loc_from_asdf "ABCD.STA2.00.BHZ" c3Handle =
      .error (swapErrMsg ["ABCD", "STA2", "00", "BHZ"]) :=
  c3_station_key_validation.1 "ABCD.STA2.00.BHZ" c3Handle
    "ABCD" "STA2" "00" "BHZ" (by decide) (by decide)

/-! ### C4: tag disambiguation in trace extraction -/

/-- C4: archive trace extraction with no caller tag raises the ambiguity
error when the station carries more than one waveform tag; otherwise the
single available tag, or the caller-specified tag, selects the first
waveform of that tag's stream matching the identifier's network, station,
location and channel, and the tag in use is returned as the second
component of the result (which the loader records in the group's tag map).
The code also raises at zero tags with no caller tag (`len != 1`). -/
theorem c4_trace_extraction (s : String) (h : AsdfHandle)
    (network station lc ch : String) (stData : StationData)
    (hb : basename s = s)
    (hsplit : pySplit s '.' = [network, station, lc, ch])
    (hval : ¬(3 ≤ network.length ∧ station.length ≤ 2))
    (hlookup : h.waveforms.lookup (network ++ "_" ++ station) = some stData) :
    (stData.tags.length > 1 →
      _get_trace_from_asdf s h none = .error (ambigTagMsg stData.tags)) ∧
    (stData.tags = [] →
      _get_trace_from_asdf s h none = .error (ambigTagMsg stData.tags)) ∧
    (∀ t0, stData.tags = [t0] →
      _get_trace_from_asdf s h none =
        extractFromStream stData t0 network station lc ch) ∧
    (∀ t, _get_trace_from_asdf s h (some t) =
      extractFromStream stData t network station lc ch) ∧
    (∀ t tr tg, extractFromStream stData t network station lc ch =
        .ok (tr, tg) →
      tg = t ∧
      ∃ stream, stData.streams.lookup t = some stream ∧
        (stream.filter (fun x =>
          x.network == network && x.station == station &&
          x.location == lc && x.channel == ch)).head? = some tr) := by
  refine ⟨?_, ?_, ?_, ?_, ?_⟩
  · intro hlen1
    rcases htags : stData.tags with _ | ⟨t1, _ | ⟨t2, rest⟩⟩
    · rw [htags] at hlen1; simp at hlen1
    · rw [htags] at hlen1; simp at hlen1
    · simp [_get_trace_from_asdf, hb, hsplit, hval, hlookup, htags]
  · intro htags
    simp [_get_trace_from_asdf, hb, hsplit, hval, hlookup, htags]
  · intro t0 htags
    simp [_get_trace_from_asdf, hb, hsplit, hval, hlookup, htags]
  · intro t
    simp [_get_trace_from_asdf, hb, hsplit, hval, hlookup]
  · intro t tr tg hex
    unfold extractFromStream at hex
    split at hex
    · simp at hex
    · rename_i stream hl
      split at hex
      · simp at hex
      · rename_i tr' hh
        simp only [Except.ok.injEq, Prod.mk.injEq] at hex
        exact ⟨hex.2.symm, stream, hl, by rw [hh, hex.1]⟩

/-- Concrete trace for the C4 witness archive. -/
def c4Trace : Trace :=
  { network := "II", station := "AAK", location := "00", channel := "BHZ",
    delta := 1, sac_b := 0, stla := 42, stlo := 74, data := [1, 2] }

/-- Concrete single-tag station data for the C4 witness. -/
def c4Station : StationData :=
  { coordinates := none, stationXML := none, tags := ["sem"],
    streams := [("sem", [c4Trace])] }

/-- Concrete archive for the C4 witness. -/
def c4Handle : AsdfHandle := { waveforms := [("II_AAK", c4Station)] }

/-- C4 witness: the theorem applied at a concrete single-tag archive; the
single available tag is used and returned. -/
theorem c4_trace_extraction_witness :
    _get_trace_from_asdf "II.AAK.00.BHZ" c4Handle none =
      extractFromStream c4Station "sem" "II" "AAK" "00" "BHZ" ∧
    _get_trace_from_asdf "II.AAK.00.BHZ" c4Handle none =
      .ok (c4Trace, "sem") := by
  have h := (c4_trace_extraction "II.AAK.00.BHZ" c4Handle "II" "AAK" "00"
    "BHZ" c4Station (by decide) (by decide) (by decide)
    (by decide)).2.2.1 "sem" rfl
  exact ⟨h, by rw [h]; decide⟩

/-! ### C6: structured-format parsing -/

/-- Concrete structured window file with one station, one channel and one
window record: the failing input for the structured parser. -/
def c6Content : JsonContent :=
  [("II.AAK", [("BHZ",
    [{ channel_id := "II.AAK.00.BHZ", channel_id_2 := "II.AAK.S3.MXZ",
       relative_starttime := 10, relative_endtime := 20,
       initial_weighting := some 1 }])])]

/-- C6: the structured-format parser never produces a group for a channel
entry - the `TraceWindow` constructor call uses keyword arguments
(`win_time`, `obsd_id`, `synt_id`) that the constructor does not accept
(and `TraceWindow` has no fields to store the identifiers: `obsd_id` is a
read-only property over `datalist`) - so parsing the concrete one-record
file raises a TypeError instead of returning one group per channel entry. -/
theorem c6_json_loader_type_error :
    ("win_time" ∉ traceWindowInitKeywords ∧
      "obsd_id" ∉ traceWindowInitKeywords ∧
      "synt_id" ∉ traceWindowInitKeywords) ∧
    load_winfile_json c6Content 1 =
      .error
        "TypeError: __init__() got an unexpected keyword argument win_time" := by
  constructor <;> decide

/-! ### C8: deduplicating archive export -/

/-- C8: for every container and output file name, archive-mode export
raises: the tag-grouping helper `_sort_new_synt` iterates `self.stations`,
an attribute no `DataContainer` carries, so the deduplicating write loop and
the station-metadata copy are never reached (and even absent that,
`_sort_new_synt` falls off its body and returns `None`, which the caller
then iterates). -/
theorem c8_write_new_synt_asdf_raises (dc : DataContainer)
    (filename : String) :
    write_new_synt_asdf dc filename =
      .error
        "AttributeError: DataContainer instance has no attribute stations" := by
  simp [write_new_synt_asdf, _sort_new_synt, getattrStations,
    dataContainerAttrs]

end Pycmt3d
